import Mathlib

/-!
Shallow embedding of the Go package `chantest` (src/chantest.go).

Modelling choices:

* Go `interface{}` values that flow into the message formatter are modelled
  by the inductive `GoVal` (a string or an int, the two shapes the claims
  exercise); a channel's element type is a Lean type parameter `α`, and a
  possibly-nil `interface{}` result is `Option α` (`none` = Go `nil`).
* `time.Duration` is an integer count of nanoseconds, so the `Before`
  policy type is `Int`.
* The nondeterministic `reflect.Select` race between a channel operation
  and the `time.After` timer is modelled by an explicit outcome parameter
  (`SelectRecvOutcome`, `SelectSendOutcome`, `ExpectOutcome`): the branch
  the Go runtime chose is an input of the embedded function, and the
  function computes exactly what the Go code does in that branch.
* `t.Fatal msg` is modelled by recording `msg` in the result: an assertion
  returns the fatal message as `Option String` (`none` = the test did not
  fail) together with the value the function body returns.  `t.Helper()`
  has no observable effect and is dropped.
* The Go type assertion `x.(string)` on a non-string value crashes; a
  function that may crash returns `Option _`, with `none` for the crash.
-/

namespace Chantest

/-- A Go `interface{}` value as used in `msgAndArgs ...interface{}`:
either a `string` or an `int`. -/
inductive GoVal : Type where
  | str (s : String)
  | int (n : Int)
deriving DecidableEq, Repr

/-- Whether the boxed Go value has dynamic type `string`, i.e. whether the
type assertion `.(string)` on it succeeds. -/
def GoVal.isGoString : GoVal → Bool
  | .str _ => true
  | .int _ => false

/-- Model of Go `fmt` rendering of one operand under verb `d`, `s` or `v`:
`%d` of an int prints it in decimal, `%s` of a string prints it verbatim,
`%v` prints the default form, and a mismatched operand is reported in
fmt's `%!verb(type=value)` style. -/
def renderVerb (verb : Char) (v : GoVal) : String :=
  match verb, v with
  | 'd', .int n => toString n
  | 'd', .str s => "%!d(string=" ++ s ++ ")"
  | 's', .str s => s
  | 's', .int n => "%!s(int=" ++ toString n ++ ")"
  | 'v', .int n => toString n
  | 'v', .str s => s
  | _, _ => ""

/-- Default (`%v`) rendering of an operand, used for fmt's EXTRA report. -/
def renderDefault : GoVal → String
  | .str s => "string=" ++ s
  | .int n => "int=" ++ toString n

/-- fmt's trailing report for operands left over after the format string is
exhausted: `%!(EXTRA type=value, ...)`. -/
def renderExtra (args : List GoVal) : String :=
  match args with
  | [] => ""
  | a :: rest =>
    "%!(EXTRA " ++ renderDefault a ++
      String.join (rest.map (fun x => ", " ++ renderDefault x)) ++ ")"

/-- Model of the fragment of Go `fmt.Sprintf` this package can reach: the
format string is scanned left to right; `%%` emits a literal percent sign;
the verbs `d`, `s`, `v` consume the next operand positionally; an unknown
verb is reported as `%!c(NOVERB)`; a verb with no operand left is reported
as `%!c(MISSING)`; operands remaining at the end are appended as EXTRA. -/
def sprintfAux : List Char → List GoVal → String
  | [], args => renderExtra args
  | ['%'], args => "%!(NOVERB)" ++ renderExtra args
  | '%' :: c :: cs, args =>
    if c = '%' then
      "%" ++ sprintfAux cs args
    else if c = 'd' ∨ c = 's' ∨ c = 'v' then
      match args with
      | [] => "%!" ++ String.singleton c ++ "(MISSING)" ++ sprintfAux cs []
      | a :: rest => renderVerb c a ++ sprintfAux cs rest
    else
      "%!" ++ String.singleton c ++ "(NOVERB)" ++ sprintfAux cs args
  | c :: cs, args => String.singleton c ++ sprintfAux cs args

/-- Model of `fmt.Sprintf format args...` over `GoVal` operands. -/
def sprintf (format : String) (args : List GoVal) : String :=
  sprintfAux format.toList args

/-- Embeds `messageFromMsgAndArgs` (src/chantest.go:167-178): an empty
sequence yields `""`; a single element is type-asserted to `string` and
returned verbatim; with more elements the first is type-asserted to
`string` and used as a `fmt.Sprintf` format for the rest.  `none` models
the crash of the type assertion when the first element is not a string. -/
def messageFromMsgAndArgs : List GoVal → Option String
  | [] => some ""
  | [x] =>
    match x with
    | .str s => some s
    | _ => none
  | x :: rest =>
    match x with
    | .str s => some (sprintf s rest)
    | _ => none

/-- Embeds `defaultOrCustomMessage` (src/chantest.go:158-164): resolve the
custom message; if it is the empty string, return the default message. -/
def defaultOrCustomMessage (defaultMessage : String) (customMsgAndArgs : List GoVal) :
    Option String :=
  (messageFromMsgAndArgs customMsgAndArgs).map
    fun msg => if msg = "" then defaultMessage else msg

/-- `Before` (src/chantest.go:41) is a `time.Duration`, an int64 count of
nanoseconds. -/
def Before : Type := Int
deriving DecidableEq

/-- `time.Millisecond` in nanoseconds. -/
def timeMillisecond : Int := 1000000

/-- `Default` (src/chantest.go:13): `Before(100 * time.Millisecond)`. -/
def Default : Before := (100 * timeMillisecond : Int)

/-- Which branch the `reflect.Select` race in `assertRecv` took: the
channel receive completed first with value `v`, or the timer fired
first. -/
inductive SelectRecvOutcome (α : Type) : Type where
  | received (v : α)
  | timedOut
deriving DecidableEq, Repr

/-- Which branch the `reflect.Select` race in `assertSend` took: the send
was accepted first, or the timer fired first. -/
inductive SelectSendOutcome : Type where
  | sent
  | timedOut
deriving DecidableEq, Repr

/-- Which event the `select` in `Expect` saw first: the spawned goroutine
closed `done`, or the timer fired. -/
inductive ExpectOutcome : Type where
  | completed
  | timedOut
deriving DecidableEq, Repr

/-- Embeds `Before.assertRecv` (src/chantest.go:104-129): if the receive
branch was chosen, return the boxed received value and `true`; if the
timer branch was chosen, return `nil` and `false`. -/
def Before.assertRecv {α : Type} (_d : Before) (outcome : SelectRecvOutcome α) :
    Option α × Bool :=
  match outcome with
  | .received v => (some v, true)
  | .timedOut => (none, false)

/-- Embeds `Before.assertSend` (src/chantest.go:131-154): `true` iff the
send branch of the select was chosen. -/
def Before.assertSend (_d : Before) {α : Type} (_v : α) (outcome : SelectSendOutcome) :
    Bool :=
  match outcome with
  | .sent => true
  | .timedOut => false

/-- Embeds `Before.Expect` (src/chantest.go:49-61): run `do` on a fresh
goroutine and race its completion against the timer; on timeout,
`t.Fatal "timeout waiting for channel send or receive"`.  The result is
the fatal message recorded on `t`, `none` when the test did not fail. -/
def Before.Expect (_d : Before) (outcome : ExpectOutcome) : Option String :=
  match outcome with
  | .completed => none
  | .timedOut => some "timeout waiting for channel send or receive"

/-- Embeds `Before.AssertRecv` (src/chantest.go:65-72): on a completed
receive, return the value with no failure; on timeout, `t.Fatal` the
resolved message and return the `nil` sentinel.  The result is
`some (fatal message, returned value)`, or `none` when message resolution
crashed. -/
def Before.AssertRecv {α : Type} (d : Before) (outcome : SelectRecvOutcome α)
    (msgAndArgs : List GoVal) : Option (Option String × Option α) :=
  match d.assertRecv outcome with
  | (v, true) => some (none, v)
  | (v, false) =>
    (defaultOrCustomMessage "timeout waiting for channel send or receive" msgAndArgs).map
      fun m => (some m, v)

/-- Embeds `Before.AssertNoRecv` (src/chantest.go:76-84): on timeout,
return `nil` with no failure; on a completed receive, `t.Fatal` the
resolved message and (textually) return the received value.  The result is
`some (fatal message, returned value)`, or `none` when message resolution
crashed. -/
def Before.AssertNoRecv {α : Type} (d : Before) (outcome : SelectRecvOutcome α)
    (msgAndArgs : List GoVal) : Option (Option String × Option α) :=
  match d.assertRecv outcome with
  | (_, false) => some (none, none)
  | (v, true) =>
    (defaultOrCustomMessage "unexpected channel receive" msgAndArgs).map
      fun m => (some m, v)

/-- Embeds `Before.AssertSend` (src/chantest.go:88-93): if the send was
accepted, return with no failure; otherwise `t.Fatal` the resolved
message.  The result is `some (fatal message)`, or `none` when message
resolution crashed. -/
def Before.AssertSend (d : Before) {α : Type} (v : α) (outcome : SelectSendOutcome)
    (msgAndArgs : List GoVal) : Option (Option String) :=
  if d.assertSend v outcome then
    some none
  else
    (defaultOrCustomMessage "timeout waiting for channel send or receive" msgAndArgs).map
      some

/-- Embeds `Before.AssertNoSend` (src/chantest.go:97-102): if the send was
accepted, `t.Fatal` the resolved message; otherwise return with no
failure.  The result is `some (fatal message)`, or `none` when message
resolution crashed. -/
def Before.AssertNoSend (d : Before) {α : Type} (v : α) (outcome : SelectSendOutcome)
    (msgAndArgs : List GoVal) : Option (Option String) :=
  if d.assertSend v outcome then
    (defaultOrCustomMessage "unexpected channel receive" msgAndArgs).map some
  else
    some none

/-- Embeds package-level `Expect` (src/chantest.go:16-18): forwards to
`Default.Expect`. -/
def Expect (outcome : ExpectOutcome) : Option String :=
  Default.Expect outcome

/-- Embeds package-level `AssertRecv` (src/chantest.go:21-23): forwards to
`Default.AssertRecv`. -/
def AssertRecv {α : Type} (outcome : SelectRecvOutcome α) (msgAndArgs : List GoVal) :
    Option (Option String × Option α) :=
  Default.AssertRecv outcome msgAndArgs

/-- Embeds package-level `AssertNoRecv` (src/chantest.go:26-28): forwards
to `Default.AssertNoRecv`. -/
def AssertNoRecv {α : Type} (outcome : SelectRecvOutcome α) (msgAndArgs : List GoVal) :
    Option (Option String × Option α) :=
  Default.AssertNoRecv outcome msgAndArgs

/-- Embeds package-level `AssertSend` (src/chantest.go:31-33): forwards to
`Default.AssertSend`. -/
def AssertSend {α : Type} (v : α) (outcome : SelectSendOutcome) (msgAndArgs : List GoVal) :
    Option (Option String) :=
  Default.AssertSend v outcome msgAndArgs

/-- Embeds package-level `AssertNoSend` (src/chantest.go:36-38): forwards
to `Default.AssertNoSend`. -/
def AssertNoSend {α : Type} (v : α) (outcome : SelectSendOutcome) (msgAndArgs : List GoVal) :
    Option (Option String) :=
  Default.AssertNoSend v outcome msgAndArgs

/-- Claim C1: for every channel (element type `α`), race outcome and
optional message sequence, `AssertRecv` returns the received value without
failing when the receive completes before the timer; when the timer fires
first it fails the test fatally with the resolved message — the default
"timeout waiting for channel send or receive" when no custom message is
given, the custom message otherwise — and returns only the nil sentinel. -/
theorem AssertRecv_recv_or_timeout {α : Type} (d : Before) (v : α) (args : List GoVal) :
    d.AssertRecv (SelectRecvOutcome.received v) args = some (none, some v)
    ∧ d.AssertRecv (SelectRecvOutcome.timedOut : SelectRecvOutcome α) args
        = (defaultOrCustomMessage "timeout waiting for channel send or receive" args).map
            (fun m => (some m, none))
    ∧ d.AssertRecv (SelectRecvOutcome.timedOut : SelectRecvOutcome α) []
        = some (some "timeout waiting for channel send or receive", none)
    ∧ d.AssertRecv (SelectRecvOutcome.timedOut : SelectRecvOutcome α) [GoVal.str "boom"]
        = some (some "boom", none) :=
  ⟨rfl, rfl, rfl, rfl⟩

/-- Claim C2: for every channel, race outcome and optional message
sequence, `AssertNoRecv` returns a nil result without failing when the
timer fires before anything is received; when a value is received within
the window it fails the test fatally with the resolved message — the
default "unexpected channel receive" when no custom message is given, the
custom message otherwise — and in this revision also returns the received
value on that failure path. -/
theorem AssertNoRecv_timeout_or_recv {α : Type} (d : Before) (v : α) (args : List GoVal) :
    d.AssertNoRecv (SelectRecvOutcome.timedOut : SelectRecvOutcome α) args = some (none, none)
    ∧ d.AssertNoRecv (SelectRecvOutcome.received v) args
        = (defaultOrCustomMessage "unexpected channel receive" args).map
            (fun m => (some m, some v))
    ∧ d.AssertNoRecv (SelectRecvOutcome.received v) []
        = some (some "unexpected channel receive", some v)
    ∧ d.AssertNoRecv (SelectRecvOutcome.received v) [GoVal.str "boom"]
        = some (some "boom", some v) :=
  ⟨rfl, rfl, rfl, rfl⟩

/-- Claim C3: for every channel, value, race outcome and optional message
sequence, `AssertSend` returns normally when the send completes before the
timer; when the timer fires first it fails the test fatally with the
resolved message — the default "timeout waiting for channel send or
receive" when no custom message is given, the custom message otherwise. -/
theorem AssertSend_sent_or_timeout {α : Type} (d : Before) (v : α) (args : List GoVal) :
    d.AssertSend v SelectSendOutcome.sent args = some none
    ∧ d.AssertSend v SelectSendOutcome.timedOut args
        = (defaultOrCustomMessage "timeout waiting for channel send or receive" args).map some
    ∧ d.AssertSend v SelectSendOutcome.timedOut []
        = some (some "timeout waiting for channel send or receive")
    ∧ d.AssertSend v SelectSendOutcome.timedOut [GoVal.str "boom"] = some (some "boom") :=
  ⟨rfl, rfl, rfl, rfl⟩

/-- Claim C4: for every channel, value, race outcome and optional message
sequence, `AssertNoSend` returns normally when the send does not complete
within the window; when the send does complete it fails the test fatally
with the resolved message — the custom message when one is given, and
otherwise exactly the reused text "unexpected channel receive". -/
theorem AssertNoSend_blocked_or_sent {α : Type} (d : Before) (v : α) (args : List GoVal) :
    d.AssertNoSend v SelectSendOutcome.timedOut args = some none
    ∧ d.AssertNoSend v SelectSendOutcome.sent args
        = (defaultOrCustomMessage "unexpected channel receive" args).map some
    ∧ d.AssertNoSend v SelectSendOutcome.sent [] = some (some "unexpected channel receive")
    ∧ d.AssertNoSend v SelectSendOutcome.sent [GoVal.str "boom"] = some (some "boom") :=
  ⟨rfl, rfl, rfl, rfl⟩

/-- Claim C5: for every action race outcome, `Expect` returns normally
when the action completes before the timer, and fails the test fatally
with exactly the fixed message "timeout waiting for channel send or
receive" when the timer fires first; `Expect` takes no custom message
argument, so the message is not configurable. -/
theorem Expect_completes_or_timeout (d : Before) :
    d.Expect ExpectOutcome.completed = none
    ∧ d.Expect ExpectOutcome.timedOut = some "timeout waiting for channel send or receive" :=
  ⟨rfl, rfl⟩

/-- Claim C6: message resolution is a function of the custom args and the
default: custom args ("code=%d", 42) resolve to exactly "code=42" by
positional format substitution; the single custom string "boom" resolves
to exactly "boom"; with no custom args the default message is returned
verbatim, whatever it is. -/
theorem message_resolution_examples (dm : String) :
    defaultOrCustomMessage dm [GoVal.str "code=%d", GoVal.int 42] = some "code=42"
    ∧ defaultOrCustomMessage dm [GoVal.str "boom"] = some "boom"
    ∧ defaultOrCustomMessage dm [] = some dm :=
  ⟨rfl, rfl, rfl⟩

/-- Claim C7: each package-level convenience function (`Expect`,
`AssertRecv`, `AssertNoRecv`, `AssertSend`, `AssertNoSend`) computes
exactly what the same-named method computes on the process-wide `Default`
policy, and the `Default` threshold is exactly 100 milliseconds
(100000000 nanoseconds). -/
theorem package_functions_forward_to_Default :
    Default = (100 * timeMillisecond : Int)
    ∧ Default = (100000000 : Int)
    ∧ (∀ outcome, Expect outcome = Default.Expect outcome)
    ∧ (∀ (α : Type) (outcome : SelectRecvOutcome α) (args : List GoVal),
        AssertRecv outcome args = Default.AssertRecv outcome args)
    ∧ (∀ (α : Type) (outcome : SelectRecvOutcome α) (args : List GoVal),
        AssertNoRecv outcome args = Default.AssertNoRecv outcome args)
    ∧ (∀ (α : Type) (v : α) (outcome : SelectSendOutcome) (args : List GoVal),
        AssertSend v outcome args = Default.AssertSend v outcome args)
    ∧ (∀ (α : Type) (v : α) (outcome : SelectSendOutcome) (args : List GoVal),
        AssertNoSend v outcome args = Default.AssertNoSend v outcome args) :=
  ⟨rfl, rfl, fun _ => rfl, fun _ _ _ => rfl, fun _ _ _ => rfl,
    fun _ _ _ _ => rfl, fun _ _ _ _ => rfl⟩

/-- Claim C8 counterexample: the claim says every single custom string,
including the empty string, is used verbatim; but with default message
"fallback" the single custom element "" resolves to "fallback", not to
"". -/
theorem single_empty_string_not_verbatim :
    defaultOrCustomMessage "fallback" [GoVal.str ""] = some "fallback"
    ∧ defaultOrCustomMessage "fallback" [GoVal.str ""] ≠ some "" := by
  exact ⟨rfl, by decide⟩

/-- Claim C8 (amended): for every default message and every nonempty
string s supplied as the single custom element, the resolved failure
message is exactly s; when s is the empty string the default message is
used instead. -/
theorem single_string_verbatim (dm s : String) :
    (s ≠ "" → defaultOrCustomMessage dm [GoVal.str s] = some s)
    ∧ defaultOrCustomMessage dm [GoVal.str ""] = some dm := by
  constructor
  · intro h
    simp [defaultOrCustomMessage, messageFromMsgAndArgs, h]
  · rfl

/-- Witness for the amended claim C8 at default "fallback" and custom
string "boom". -/
theorem single_string_verbatim_witness :
    defaultOrCustomMessage "fallback" [GoVal.str "boom"] = some "boom" :=
  (single_string_verbatim "fallback" "boom").1 (by decide)

/-- Claim C9: message resolution crashes with a type-cast failure
(modelled by `none`) exactly when the custom message sequence is non-empty
and its first element is not a string; in particular, when the first
element is a string it never crashes. -/
theorem messageFromMsgAndArgs_crash_iff (l : List GoVal) :
    messageFromMsgAndArgs l = none
      ↔ ∃ x rest, l = x :: rest ∧ x.isGoString = false := by
  cases l with
  | nil => simp [messageFromMsgAndArgs]
  | cons x rest =>
    cases rest with
    | nil => cases x <;> simp [messageFromMsgAndArgs, GoVal.isGoString]
    | cons y t => cases x <;> simp [messageFromMsgAndArgs, GoVal.isGoString]

/-- Claim C10: a single-element custom message is never passed through the
formatter: any lone custom string s resolves to the literal s even when it
contains format verbs such as "%d", while with two or more elements the
first string is used as a format template for the rest — so ["%d"] yields
"%d" but ["%d", 5] yields "5". -/
theorem single_element_never_formatted (s : String) (a : GoVal) (rest : List GoVal) :
    messageFromMsgAndArgs [GoVal.str s] = some s
    ∧ messageFromMsgAndArgs [GoVal.str "%d"] = some "%d"
    ∧ messageFromMsgAndArgs (GoVal.str s :: a :: rest) = some (sprintf s (a :: rest))
    ∧ messageFromMsgAndArgs [GoVal.str "%d", GoVal.int 5] = some "5" :=
  ⟨rfl, rfl, rfl, rfl⟩

end Chantest
